import Mathlib

/-!
Verification development for the party-song-guess repository.

Part 1 embeds the answer matcher `checkAnswer` (the rewritten matcher in
src/unnamed/part_000, lines 57-149: normalization, exact tier, token-overlap
tier, Levenshtein tier).  Part 2 embeds the socket.io game engine of
src/unnamed/part_006 (first copy, lines 1-255) as an explicit state machine
with an adversarial event/timer scheduler.  All definitions are executable.

Modelling notes, stated once:
* JS strings are Lean `String`s; the Unicode NFD decomposition followed by
  stripping of combining marks (U+0300-U+036F) is modelled by a finite
  decomposition table over the precomposed Latin-1 letters (the characters
  the repository's data and tests exercise); other characters are left
  untouched exactly as the regexes leave them.
* JS numbers: every comparison the matcher performs against the float
  literals 0.8, 0.75 and 0.3 is exact for the integer operands involved
  (IEEE-754 division of small integers is correctly rounded, and the gaps
  between distinct small rationals exceed one ulp), so thresholds are
  encoded as the equivalent exact integer inequalities.
-/

namespace PSG

/-- JS `\w` word character class: ASCII letter, digit or underscore. -/
def isWordChar (c : Char) : Bool := c.isAlphanum || c = '_'

/-- JS `\s` whitespace (the subset occurring in the repository's data). -/
def isSpaceChar (c : Char) : Bool := c = ' ' || c = '\t' || c = '\n' || c = '\r'

/-- `String.prototype.toLowerCase` restricted to ASCII and Latin-1 letters
(the simple lowercase mapping adds 0x20 on both ranges). -/
def toLowerJS (c : Char) : Char :=
  if c.isUpper then c.toLower
  else if 0xC0 ≤ c.toNat ∧ c.toNat ≤ 0xDE ∧ c.toNat ≠ 0xD7 then Char.ofNat (c.toNat + 0x20)
  else c

/-- `.normalize("NFD").replace(/[̀-ͯ]/g, "")` modelled by a finite
decomposition table on lowercase Latin-1 letters: decompose then drop the
combining mark, i.e. map to the base letter. -/
def deaccent (c : Char) : Char :=
  match c with
  | 'à' | 'á' | 'â' | 'ã' | 'ä' | 'å' => 'a'
  | 'è' | 'é' | 'ê' | 'ë' => 'e'
  | 'ì' | 'í' | 'î' | 'ï' => 'i'
  | 'ò' | 'ó' | 'ô' | 'õ' | 'ö' => 'o'
  | 'ù' | 'ú' | 'û' | 'ü' => 'u'
  | 'ñ' => 'n'
  | 'ç' => 'c'
  | 'ý' | 'ÿ' => 'y'
  | _ => c

/-- `.replace(/\(.*?\)/g, '')`: repeatedly delete the span from each `(` to
the nearest following `)`; an unmatched `(` is kept together with its tail.
The accumulator holds (reversed) the characters seen since an unmatched `(`. -/
def rpAux : Option (List Char) → List Char → List Char
  | none, [] => []
  | some acc, [] => '(' :: acc.reverse
  | none, c :: rest => if c = '(' then rpAux (some []) rest else c :: rpAux none rest
  | some acc, c :: rest => if c = ')' then rpAux none rest else rpAux (some (c :: acc)) rest

def removeParens (l : List Char) : List Char := rpAux none l

/-- After `f`, the tail must read "eat" followed by a word boundary
(end of string or a non-word character) for `\bfeat\.?\b.*$` to match;
since the match is followed by `.*$`, everything from `feat` on is dropped. -/
def matchFeatTail (l : List Char) : Bool :=
  match l with
  | 'e' :: 'a' :: 't' :: rest => rest.isEmpty || !isWordChar (rest.headD ' ')
  | _ => false

/-- `.replace(/\bfeat\.?\b.*$/g, '')`: drop from the first occurrence of the
word `feat` (boundary before, boundary after `feat` or after `feat.`) to the
end of the string.  `prev` records whether the previous character was a word
character (for the leading `\b`). -/
def stripFeatAux : Bool → List Char → List Char
  | _, [] => []
  | prev, c :: rest =>
    if c = 'f' ∧ prev = false ∧ matchFeatTail rest then []
    else c :: stripFeatAux (isWordChar c) rest

/-- `.replace(/[^\w\s]/g, ' ')`. -/
def punctToSpace (c : Char) : Char :=
  if isWordChar c || isSpaceChar c then c else ' '

/-- Split on whitespace, dropping empty pieces (used both for
`.replace(/\s+/g,' ').trim()` and for `split(' ').filter(w => w)`). -/
def wordsAux : List Char → List Char → List (List Char)
  | acc, [] => if acc.isEmpty then [] else [acc.reverse]
  | acc, c :: rest =>
    if isSpaceChar c then
      if acc.isEmpty then wordsAux [] rest else acc.reverse :: wordsAux [] rest
    else wordsAux (c :: acc) rest

def wordsOf (l : List Char) : List (List Char) := wordsAux [] l

/-- The matcher's `clean`: lowercase, strip accents, remove parenthesized
spans, drop a trailing `feat.` marker, replace punctuation with spaces,
collapse whitespace runs, trim (the last two = join the words with `' '`). -/
def clean (s : String) : String :=
  let l := ((removeParens ((s.data.map toLowerJS).map deaccent))
    |> stripFeatAux false).map punctToSpace
  String.mk (List.intercalate [' '] (wordsOf l))

/-- Whitespace-split word list of a string. -/
def wordsOfStr (s : String) : List String := (wordsOf s.data).map String.mk

/-- The fixed multilingual stop-word list of `getTokens`. -/
def stopwords : List String :=
  ["the", "a", "an", "le", "la", "il", "lo", "i", "gli", "un", "una", "uno",
   "el", "los", "las", "unos", "unas", "and", "of", "in", "on", "at", "to"]

/-- `getTokens`: whitespace tokens minus stop-words, as a set. -/
def getTokens (s : String) : Finset String :=
  ((wordsOfStr s).filter (fun w => decide (w ∉ stopwords))).toFinset

/-- `finalGTokens` / `finalATokens`: fall back to the raw token set when
stop-word filtering empties it. -/
def finalTokens (s : String) : Finset String :=
  let t := getTokens s
  if t = ∅ then (wordsOfStr s).toFinset else t

/-- One row update of the Levenshtein dynamic program: `left` is the value
just written in the new row, `p0 :: p1 :: ps` the relevant slice of the
previous row. -/
def rowGo (x : Char) : List Char → List Nat → Nat → List Nat
  | y :: ys, p0 :: p1 :: ps, left =>
    let v := min (min (left + 1) (p1 + 1)) (p0 + (if x = y then 0 else 1))
    v :: rowGo x ys (p1 :: ps) v
  | _, _, _ => []

def levRowStep (x : Char) (ys : List Char) (prev : List Nat) : List Nat :=
  let h := prev.headD 0 + 1
  h :: rowGo x ys prev h

/-- Levenshtein edit distance (the `similarity` helper's dp table, kept as
rolling rows; answer = last entry of the final row). -/
def levenshtein (xs ys : List Char) : Nat :=
  (xs.foldl (fun prev x => levRowStep x ys prev) (List.range (ys.length + 1))).getLastD 0

/-- Tier 3 of the matcher: `similarity(g, a) >= 0.75`, where `similarity`
returns 0 for an empty side, returns 0 when the length gap exceeds 30% of
the longer length, and otherwise is `1 - dist/maxLen`.  Encoded exactly:
`|l1-l2|/max > 0.3 ↔ 10*|l1-l2| > 3*max` and
`1 - d/max ≥ 0.75 ↔ 4*d ≤ max`. -/
def levSimilarOK (g a : String) : Bool :=
  let l1 := g.length
  let l2 := a.length
  if l1 = 0 ∨ l2 = 0 then false
  else if 10 * (max l1 l2 - min l1 l2) > 3 * max l1 l2 then false
  else 4 * levenshtein g.data a.data ≤ max l1 l2

/-- `checkAnswer` (src/unnamed/part_000 lines 63-147): falsy-input guard,
normalization, then the three tiers in order — exact match, token overlap
(`intersection.length / finalATokens.size >= 0.8`, encoded exactly as
`5*|∩| ≥ 4*|A|`), Levenshtein similarity. -/
def checkAnswer (guess actual : String) : Bool :=
  if guess = "" ∨ actual = "" then false
  else
    let g := clean guess
    let a := clean actual
    if g = "" ∨ a = "" then false
    else if g = a then true
    else
      let gT := finalTokens g
      let aT := finalTokens a
      if 0 < aT.card ∧ 4 * aT.card ≤ 5 * (gT ∩ aT).card then true
      else levSimilarOK g a

example : checkAnswer "Wonderwall" "Wonderwall" = true := by decide
example : checkAnswer "Teen Spirit" "Smells Like Teen Spirit" = false := by decide
example : checkAnswer "The Beatles" "Beatles" = true := by decide
example : checkAnswer "Wonderwal" "Wonderwall" = true := by decide
example : checkAnswer "café" "cafe" = true := by decide
example : checkAnswer "Song (Remix)" "Song" = true := by decide
example : checkAnswer "Hey, Jude!" "Hey Jude" = true := by decide
example : checkAnswer "Song feat. Someone" "Song" = true := by decide
example : checkAnswer "" "x" = false := by decide

/-- The JavaScript values relevant at `checkAnswer`'s public boundary. -/
inductive JSVal
  | vNull
  | vUndefined
  | vStr (s : String)
  | vNum (n : Int)
  | vBool (b : Bool)
deriving DecidableEq, Repr

/-- JS truthiness of the modelled values. -/
def truthy : JSVal → Bool
  | JSVal.vNull => false
  | JSVal.vUndefined => false
  | JSVal.vStr s => s != ""
  | JSVal.vNum n => n != 0
  | JSVal.vBool b => b

/-- `checkAnswer` at its JS call boundary: `if (!guess || !actual) return
false` handles every falsy value; past the guard, `clean` immediately calls
`.toLowerCase()` on its argument, which throws a TypeError for any truthy
non-string value and kills the call. -/
def checkAnswerJS (g a : JSVal) : Except String Bool :=
  if truthy g = false ∨ truthy a = false then Except.ok false
  else
    match g, a with
    | JSVal.vStr gs, JSVal.vStr ts => Except.ok (checkAnswer gs ts)
    | _, _ => Except.error "TypeError: toLowerCase is not a function"

/-!
## Part 2: the game engine (src/unnamed/part_006, first copy, lines 1-255)

One room is modelled (rooms are fully independent: every handler touches
only `rooms[roomId]`).  A `Sys` is the room object plus the node.js timer
queue (the armed, not-yet-fired `setTimeout` callbacks, each with the delay
it was armed with) and the count of start_game continuations suspended at
`await` (the code between `room.state = 'LOADING'` and the `try/catch`
resolution runs later as a promise continuation).  A step is either an
inbound socket event or the firing of one pending timer; the scheduler is
adversarial (any pending timer may fire next), a superset of node's
earliest-deadline order.  The external collaborators (Gemini, Apple Music,
the shuffle and the slice to `requestedRounds`) are outside the room's
state: their combined outcome enters as the `startGameRes` event carrying
either a failure or the resulting `finalPlaylist`.  Database calls
(`createGameRoom` etc.) never touch room state and are omitted.  A JS
`TypeError` escaping a handler or timer callback kills the process: this is
the `crashed` flag, after which no further step runs.

Song objects in `room.songs` are pairwise distinct JS objects (each comes
from a separate `searchAndGetPreview` result object); the `tag` field
models object identity, so `===` on songs is structural equality here.
-/

structure Song where
  tag : Nat
  title : String
  previewUrl : String
deriving DecidableEq, Repr

structure Player where
  id : String
  name : String
  score : Nat
deriving DecidableEq, Repr

inductive Phase
  | LOBBY | LOADING | PLAYING | ENDED
deriving DecidableEq, Repr

/-- The room object of `create_room` (scores map and DB-only fields
omitted: never read by the engine).  `roundActive` and `songs` are absent
(undefined, falsy) until first set; modelled as `false` / `[]`. -/
structure Room where
  id : String
  players : List Player
  state : Phase
  currentRound : Nat
  totalRounds : Nat
  currentSong : Option Song
  roundActive : Bool
  songs : List Song
deriving DecidableEq, Repr

/-- The five `setTimeout` callbacks of the engine.  The round-timeout
closure captures the `song` local of its round; the others only capture the
room id. -/
inductive TimerTask
  | startGameDelay
  | countdown
  | roundTimeout (song : Song)
  | afterWin
  | afterTimeout
deriving DecidableEq, Repr

structure Sys where
  room : Room
  timers : List (Nat × TimerTask)
  pendingAI : Nat
  crashed : Bool
deriving DecidableEq, Repr

/-- Outbound events (broadcasts, plus the unicast `wrong_guess` and the
unicast join error). -/
inductive Out
  | game_loading
  | game_started (totalRounds : Nat)
  | start_countdown
  | new_round (roundNumber : Nat) (previewUrl : String)
  | update_scores (players : List Player)
  | round_winner (playerName : String) (song : Song)
  | round_timeout (song : Song)
  | game_over (players : List Player)
  | wrong_guess (sid : String)
  | player_joined (players : List Player)
  | room_joined (sid : String)
  | errorEv (code : String)
  | errorUni (sid code : String)
deriving DecidableEq, Repr

/-- Outcome of the awaited playlist resolution: a caught failure (AI error,
AI empty result, or the 20s `Promise.race` timeout — `timeout` selects the
error code) or the `finalPlaylist` after filtering, shuffling and slicing. -/
inductive StartResult
  | fail (timeout : Bool)
  | ok (finalPlaylist : List Song)
deriving DecidableEq, Repr

inductive Ev
  | joinRoom (rid sid name : String)
  | startGameReq (rid sid : String)
  | startGameRes (r : StartResult)
  | submitGuess (rid sid guess : String)
  | fire (d : Nat) (t : TimerTask)
deriving DecidableEq, Repr

/-- The `setTimeout` literals of the engine. -/
def startDelayMs : Nat := 1000
def countdownMs : Nat := 3000
def roundTimeoutMs : Nat := 30000
/-- Pause after a winning guess before the next round (line 190). -/
def winPauseMs : Nat := 5000
/-- Pause after a round timeout before the next round (line 231). -/
def timeoutPauseMs : Nat := 5000

/-- `player.score += 1` on the object `players.find(...)` returned: bump
the first entry with the given socket id. -/
def award (sid : String) : List Player → List Player
  | [] => []
  | p :: ps => if p.id = sid then { p with score := p.score + 1 } :: ps else p :: award sid ps

/-- `endGameInternal`: mark ENDED and broadcast `game_over`. -/
def endGameF (s : Sys) : Sys × List Out :=
  ({ s with room := { s.room with state := Phase.ENDED } }, [Out.game_over s.room.players])

/-- `startRound`: finish the game when the cursor is exhausted, else
broadcast the countdown and arm the 3s timer. -/
def startRoundF (s : Sys) : Sys × List Out :=
  if s.room.totalRounds ≤ s.room.currentRound then endGameF s
  else ({ s with timers := s.timers ++ [(countdownMs, TimerTask.countdown)] }, [Out.start_countdown])

/-- Body of the 3s countdown timer: read `songs[currentRound]`, set
`currentSong`/`roundActive`, bump the cursor, broadcast `new_round`, arm
the 30s timeout.  When the index is out of range, `song` is `undefined`:
the three assignments still happen, then `song.previewUrl` throws before
the emit and the process dies. -/
def countdownF (s : Sys) : Sys × List Out :=
  match s.room.songs[s.room.currentRound]? with
  | some song =>
    let room' := { s.room with currentSong := some song, roundActive := true, currentRound := s.room.currentRound + 1 }
    ({ s with room := room', timers := s.timers ++ [(roundTimeoutMs, TimerTask.roundTimeout song)] },
     [Out.new_round (s.room.currentRound + 1) song.previewUrl])
  | none =>
    let room' := { s.room with currentSong := none, roundActive := true, currentRound := s.room.currentRound + 1 }
    ({ s with room := room', crashed := true }, [])

/-- Body of the 30s round-timeout timer: act only when the round is still
active and `currentSong` is the identical song object; otherwise do
nothing. -/
def timeoutF (s : Sys) (song : Song) : Sys × List Out :=
  if s.room.roundActive = true ∧ s.room.currentSong = some song then
    let room' := { s.room with roundActive := false }
    ({ s with room := room', timers := s.timers ++ [(timeoutPauseMs, TimerTask.afterTimeout)] },
     [Out.round_timeout song])
  else (s, [])

/-- `submit_guess` handler (lines 170-195).  Guard order as in the source:
unknown room, then `roundActive`, then `state`.  On a match the claim
(`roundActive = false`) happens first; the score, emits and the 5s timer
only happen when the submitting socket is among the players. -/
def submitGuessF (s : Sys) (rid sid guess : String) : Sys × List Out :=
  if rid ≠ s.room.id ∨ s.room.roundActive = false ∨ s.room.state ≠ Phase.PLAYING then (s, [])
  else
    match s.room.currentSong with
    | none => ({ s with crashed := true }, [])
    | some song =>
      if checkAnswer guess song.title then
        match s.room.players.find? (fun p => p.id = sid) with
        | some p =>
          let players' := award sid s.room.players
          let room' := { s.room with roundActive := false, players := players' }
          ({ s with room := room', timers := s.timers ++ [(winPauseMs, TimerTask.afterWin)] },
           [Out.update_scores players', Out.round_winner p.name song])
        | none => ({ s with room := { s.room with roundActive := false } }, [])
      else (s, [Out.wrong_guess sid])

/-- `join_room` handler (lines 67-77). -/
def joinF (s : Sys) (rid sid name : String) : Sys × List Out :=
  if rid = s.room.id ∧ s.room.state = Phase.LOBBY then
    let players' := s.room.players ++ [{ id := sid, name := name, score := 0 }]
    ({ s with room := { s.room with players := players' } },
     [Out.player_joined players', Out.room_joined sid])
  else (s, [Out.errorUni sid "ROOM_NOT_FOUND_OR_STARTED"])

/-- Synchronous prefix of the `start_game` handler (lines 79-88): only the
existence and non-emptiness guards, then `state = 'LOADING'` and the
`game_loading` broadcast; the requester (`sid`) is never inspected.  The
rest of the handler is suspended at the first `await`. -/
def startGameReqF (s : Sys) (rid _sid : String) : Sys × List Out :=
  if rid ≠ s.room.id then (s, [])
  else if s.room.players.isEmpty then (s, [])
  else
    let room' := { s.room with state := Phase.LOADING }
    ({ s with room := room', pendingAI := s.pendingAI + 1 }, [Out.game_loading])

/-- Resumption of a suspended `start_game` (lines 90-166): on a playlist,
install it, enter PLAYING and arm the 1s pre-round timer; on a failure or
an empty `finalPlaylist`, the catch block rolls the state back to LOBBY and
broadcasts a single error event. -/
def startGameResF (s : Sys) (r : StartResult) : Sys × List Out :=
  if s.pendingAI = 0 then (s, [])
  else
    let s0 := { s with pendingAI := s.pendingAI - 1 }
    match r with
    | StartResult.ok ps =>
      if ps.isEmpty then
        ({ s0 with room := { s0.room with state := Phase.LOBBY } },
         [Out.errorEv "GENERATION_FAILED"])
      else
        let room' := { s0.room with songs := ps, totalRounds := ps.length, currentRound := 0, state := Phase.PLAYING }
        ({ s0 with room := room', timers := s0.timers ++ [(startDelayMs, TimerTask.startGameDelay)] },
         [Out.game_started ps.length])
    | StartResult.fail t =>
      ({ s0 with room := { s0.room with state := Phase.LOBBY } },
       [Out.errorEv (if t then "AI_TIMEOUT" else "GENERATION_FAILED")])

/-- Firing a pending timer: it must be in the queue; it is consumed, then
its body runs. -/
def fireF (s : Sys) (d : Nat) (t : TimerTask) : Sys × List Out :=
  if (d, t) ∈ s.timers then
    let s' := { s with timers := s.timers.erase (d, t) }
    match t with
    | TimerTask.startGameDelay => startRoundF s'
    | TimerTask.countdown => countdownF s'
    | TimerTask.roundTimeout song => timeoutF s' song
    | TimerTask.afterWin =>
      if s'.room.currentRound < s'.room.totalRounds then startRoundF s' else endGameF s'
    | TimerTask.afterTimeout => startRoundF s'
  else (s, [])

/-- One atomic step of the room's serialized execution context. -/
def stepF (s : Sys) (e : Ev) : Sys × List Out :=
  if s.crashed then (s, [])
  else
    match e with
    | Ev.joinRoom rid sid name => joinF s rid sid name
    | Ev.startGameReq rid sid => startGameReqF s rid sid
    | Ev.startGameRes r => startGameResF s r
    | Ev.submitGuess rid sid guess => submitGuessF s rid sid guess
    | Ev.fire d t => fireF s d t

/-- Run a sequence of steps, concatenating the emitted events. -/
def run (s : Sys) : List Ev → Sys × List Out
  | [] => (s, [])
  | e :: evs =>
    let p := stepF s e
    let q := run p.1 evs
    (q.1, p.2 ++ q.2)

/-- The room object as `create_room` builds it. -/
def mkRoom (roomId hostSid hostName : String) : Room :=
  { id := roomId, players := [{ id := hostSid, name := hostName, score := 0 }],
    state := Phase.LOBBY, currentRound := 0, totalRounds := 10,
    currentSong := none, roundActive := false, songs := [] }

def mkSys (roomId hostSid hostName : String) : Sys :=
  { room := mkRoom roomId hostSid hostName, timers := [], pendingAI := 0, crashed := false }

/-! ### Concrete traces used by witnesses and counterexamples -/

def song1 : Song := { tag := 0, title := "Wonderwall", previewUrl := "p1" }
def song2 : Song := { tag := 1, title := "Hey Jude", previewUrl := "p2" }

def demoSys : Sys := mkSys "R" "host" "Host"

/-- Create, start and resolve a one-song game up to the start of round 1. -/
def startEvs : List Ev :=
  [Ev.startGameReq "R" "host", Ev.startGameRes (StartResult.ok [song1]),
   Ev.fire startDelayMs TimerTask.startGameDelay, Ev.fire countdownMs TimerTask.countdown]

/-- ... then the host wins round 1. -/
def winEvs : List Ev := startEvs ++ [Ev.submitGuess "R" "host" "Wonderwall"]

/-- ... or a socket that never joined the room submits the exact title,
and afterwards the round's timeout timer fires. -/
def ghostEvs : List Ev :=
  startEvs ++ [Ev.submitGuess "R" "ghost" "Wonderwall",
               Ev.fire roundTimeoutMs (TimerTask.roundTimeout song1)]

/-- ... or nobody guesses and the round times out. -/
def timeoutEvs : List Ev := startEvs ++ [Ev.fire roundTimeoutMs (TimerTask.roundTimeout song1)]

example : (run demoSys winEvs).1.timers
    = [(roundTimeoutMs, TimerTask.roundTimeout song1), (winPauseMs, TimerTask.afterWin)] := by decide
example : (run demoSys ghostEvs).1.timers = [] := by decide
example : (run demoSys ghostEvs).2
    = [Out.game_loading, Out.game_started 1, Out.start_countdown, Out.new_round 1 "p1"] := by decide
example : (run demoSys timeoutEvs).1.timers = [(timeoutPauseMs, TimerTask.afterTimeout)] := by decide

/-! ### Classification of broadcast events and the one-resolution-per-round scan -/

/-- Is this event a `new_round` broadcast (a round starting)? -/
def isNR : Out → Bool
  | Out.new_round _ _ => true
  | _ => false

/-- Is this event a `round_winner` broadcast? -/
def isW : Out → Bool
  | Out.round_winner _ _ => true
  | _ => false

/-- Is this event a round resolution (`round_winner` or `round_timeout`)? -/
def isRes : Out → Bool
  | Out.round_winner _ _ => true
  | Out.round_timeout _ => true
  | _ => false

/-- Scan of an output stream: `seen` records whether a resolution has been
emitted since the last `new_round`; the scan fails on a second one. -/
def scanOk : Bool → List Out → Bool
  | _, [] => true
  | seen, x :: xs =>
    if isNR x then scanOk false xs
    else if isRes x then !seen && scanOk true xs
    else scanOk seen xs

/-- Final flag of the scan. -/
def scanFl : Bool → List Out → Bool
  | seen, [] => seen
  | seen, x :: xs =>
    if isNR x then scanFl false xs
    else if isRes x then scanFl true xs
    else scanFl seen xs

lemma scanOk_append (l₁ l₂ : List Out) :
    ∀ seen, scanOk seen (l₁ ++ l₂) = (scanOk seen l₁ && scanOk (scanFl seen l₁) l₂) := by
  induction l₁ with
  | nil => intro seen; simp [scanOk, scanFl]
  | cons x xs ih =>
    intro seen
    by_cases h1 : isNR x <;> by_cases h2 : isRes x <;>
      simp [scanOk, scanFl, h1, h2, ih, Bool.and_assoc]

lemma countP_cons_zero {p : Out → Bool} {x : Out} {xs : List Out}
    (h : (x :: xs).countP p = 0) : p x = false ∧ xs.countP p = 0 := by
  rw [List.countP_cons] at h
  rcases Nat.add_eq_zero.mp h with ⟨h1, h2⟩
  refine ⟨?_, h1⟩
  by_cases hp : p x
  · simp [hp] at h2
  · simpa using hp

lemma scanOk_quiet :
    ∀ (l : List Out) (seen : Bool), l.countP isNR = 0 → l.countP isRes = 0 →
      scanOk seen l = true ∧ scanFl seen l = seen := by
  intro l
  induction l with
  | nil => intro seen _ _; exact ⟨rfl, rfl⟩
  | cons x xs ih =>
    intro seen hn hr
    obtain ⟨hx1, hn'⟩ := countP_cons_zero hn
    obtain ⟨hx2, hr'⟩ := countP_cons_zero hr
    obtain ⟨i1, i2⟩ := ih seen hn' hr'
    constructor <;> simp [scanOk, scanFl, hx1, hx2, i1, i2]

lemma run_cons (s : Sys) (e : Ev) (evs : List Ev) :
    run s (e :: evs) = ((run (stepF s e).1 evs).1, (stepF s e).2 ++ (run (stepF s e).1 evs).2) := rfl

/-! ### Step equations: what each branch of each handler does -/

lemma stepF_crashed {s : Sys} (e : Ev) (hc : s.crashed = true) : stepF s e = (s, []) := by
  simp [stepF, hc]

/-- A `submit_guess` for a room whose round is not active is a silent no-op
(the handler's first `return`). -/
lemma stepF_guess_dead {s : Sys} (rid sid guess : String)
    (h : s.room.roundActive = false) :
    stepF s (Ev.submitGuess rid sid guess) = (s, []) := by
  by_cases hc : s.crashed
  · simp [stepF, hc]
  · simp [stepF, hc, submitGuessF, h]

/-- A `submit_guess` naming an unknown room is a silent no-op. -/
lemma stepF_guess_unknown {s : Sys} (rid sid guess : String)
    (h : rid ≠ s.room.id) :
    stepF s (Ev.submitGuess rid sid guess) = (s, []) := by
  by_cases hc : s.crashed
  · simp [stepF, hc]
  · simp [stepF, hc, submitGuessF, h]

/-- A rejected guess during an active round: a unicast `wrong_guess`, no
state change. -/
lemma stepF_guess_wrong {s : Sys} {song : Song} (rid sid guess : String)
    (hc : s.crashed = false) (hrid : rid = s.room.id)
    (hact : s.room.roundActive = true) (hst : s.room.state = Phase.PLAYING)
    (hcs : s.room.currentSong = some song)
    (hans : checkAnswer guess song.title = false) :
    stepF s (Ev.submitGuess rid sid guess) = (s, [Out.wrong_guess sid]) := by
  simp [stepF, hc, submitGuessF, hrid, hact, hst, hcs, hans]

/-- The winning branch: claim the round, bump the submitter's score, emit
the scoreboard and `round_winner`, arm the 5s inter-round timer — and
cancel nothing. -/
lemma stepF_guess_win {s : Sys} {song : Song} {p : Player} (rid sid guess : String)
    (hc : s.crashed = false) (hrid : rid = s.room.id)
    (hact : s.room.roundActive = true) (hst : s.room.state = Phase.PLAYING)
    (hcs : s.room.currentSong = some song)
    (hans : checkAnswer guess song.title = true)
    (hfind : s.room.players.find? (fun q => q.id = sid) = some p) :
    stepF s (Ev.submitGuess rid sid guess) =
      ({ s with
          room := { s.room with roundActive := false, players := award sid s.room.players },
          timers := s.timers ++ [(winPauseMs, TimerTask.afterWin)] },
       [Out.update_scores (award sid s.room.players), Out.round_winner p.name song]) := by
  simp [stepF, hc, submitGuessF, hrid, hact, hst, hcs, hans, hfind]

/-- The accepted guess of a socket that is not among the room's players:
the round is claimed (`roundActive := false`) and nothing else happens. -/
lemma stepF_guess_ghost {s : Sys} {song : Song} (rid sid guess : String)
    (hc : s.crashed = false) (hrid : rid = s.room.id)
    (hact : s.room.roundActive = true) (hst : s.room.state = Phase.PLAYING)
    (hcs : s.room.currentSong = some song)
    (hans : checkAnswer guess song.title = true)
    (hfind : s.room.players.find? (fun q => q.id = sid) = none) :
    stepF s (Ev.submitGuess rid sid guess) =
      ({ s with room := { s.room with roundActive := false } }, []) := by
  simp [stepF, hc, submitGuessF, hrid, hact, hst, hcs, hans, hfind]

/-- The 30s timeout callback when its guard holds: resolve by timeout and
arm the 5s inter-round timer. -/
lemma stepF_timeout_hit {s : Sys} {song : Song} (d : Nat)
    (hc : s.crashed = false) (hmem : (d, TimerTask.roundTimeout song) ∈ s.timers)
    (hact : s.room.roundActive = true) (hcs : s.room.currentSong = some song) :
    stepF s (Ev.fire d (TimerTask.roundTimeout song)) =
      ({ s with
          room := { s.room with roundActive := false },
          timers := s.timers.erase (d, TimerTask.roundTimeout song) ++ [(timeoutPauseMs, TimerTask.afterTimeout)] },
       [Out.round_timeout song]) := by
  simp [stepF, hc, fireF, hmem, timeoutF, hact, hcs]

/-- The 30s timeout callback firing stale (round already resolved, or the
state has moved to a different song object): the room is untouched and
nothing is emitted; only the fired timer itself leaves the queue. -/
lemma stepF_timeout_stale {s : Sys} (d : Nat) (song : Song)
    (hc : s.crashed = false)
    (h : s.room.roundActive = false ∨ s.room.currentSong ≠ some song) :
    stepF s (Ev.fire d (TimerTask.roundTimeout song)) =
      ({ s with timers := s.timers.erase (d, TimerTask.roundTimeout song) }, []) := by
  by_cases hmem : (d, TimerTask.roundTimeout song) ∈ s.timers
  · have hguard : ¬(s.room.roundActive = true ∧ s.room.currentSong = some song) := by
      rcases h with h | h
      · intro hx; rw [h] at hx; exact absurd hx.1 (by simp)
      · intro hx; exact h hx.2
    simp [stepF, hc, fireF, hmem, timeoutF, hguard]
  · have hmem' : s.timers.erase (d, TimerTask.roundTimeout song) = s.timers :=
      List.erase_of_not_mem hmem
    have hc' : (s.crashed = true) = False := by simp [hc]
    simp [stepF, hc', fireF, hmem, hmem']

/-- `start_game` synchronous prefix, for a known room with players: enter
LOADING, broadcast `game_loading`, suspend at the `await`. -/
lemma stepF_req_ok {s : Sys} (rid sid : String)
    (hc : s.crashed = false) (hrid : rid = s.room.id)
    (hp : s.room.players ≠ []) :
    stepF s (Ev.startGameReq rid sid) =
      ({ s with
          room := { s.room with state := Phase.LOADING },
          pendingAI := s.pendingAI + 1 }, [Out.game_loading]) := by
  have hp' : ¬s.room.players.isEmpty := by simpa [List.isEmpty_iff] using hp
  simp [stepF, hc, startGameReqF, hrid, hp']

/-- `start_game` for an unknown room or an empty player list: silent
no-op, no error surfaced. -/
lemma stepF_req_noop {s : Sys} (rid sid : String)
    (h : rid ≠ s.room.id ∨ s.room.players = []) :
    stepF s (Ev.startGameReq rid sid) = (s, []) := by
  by_cases hc : s.crashed
  · simp [stepF, hc]
  · rcases h with h | h
    · simp [stepF, hc, startGameReqF, h]
    · by_cases hr : rid ≠ s.room.id
      · simp [stepF, hc, startGameReqF, hr]
      · simp [stepF, hc, startGameReqF, hr, h]

/-- Playlist resolution failure (caught error): roll back to LOBBY, emit
exactly one error broadcast, touch nothing else, arm nothing. -/
lemma stepF_res_fail {s : Sys} (t : Bool)
    (hc : s.crashed = false) (hp : 0 < s.pendingAI) :
    stepF s (Ev.startGameRes (StartResult.fail t)) =
      ({ s with
          room := { s.room with state := Phase.LOBBY },
          pendingAI := s.pendingAI - 1 },
       [Out.errorEv (if t then "AI_TIMEOUT" else "GENERATION_FAILED")]) := by
  have hp' : ¬s.pendingAI = 0 := Nat.pos_iff_ne_zero.mp hp
  simp [stepF, hc, startGameResF, hp']

/-- Playlist resolution yielding an empty `finalPlaylist`: the throw is
caught by the same catch block. -/
lemma stepF_res_empty {s : Sys}
    (hc : s.crashed = false) (hp : 0 < s.pendingAI) :
    stepF s (Ev.startGameRes (StartResult.ok [])) =
      ({ s with
          room := { s.room with state := Phase.LOBBY },
          pendingAI := s.pendingAI - 1 },
       [Out.errorEv "GENERATION_FAILED"]) := by
  have hp' : ¬s.pendingAI = 0 := Nat.pos_iff_ne_zero.mp hp
  simp [stepF, hc, startGameResF, hp']

/-- Successful playlist resolution: install the playlist, enter PLAYING,
broadcast `game_started`, arm the 1s pre-round timer. -/
lemma stepF_res_ok {s : Sys} {ps : List Song}
    (hc : s.crashed = false) (hp : 0 < s.pendingAI) (hne : ps ≠ []) :
    stepF s (Ev.startGameRes (StartResult.ok ps)) =
      ({ s with
          room := { s.room with songs := ps, totalRounds := ps.length, currentRound := 0, state := Phase.PLAYING },
          pendingAI := s.pendingAI - 1,
          timers := s.timers ++ [(startDelayMs, TimerTask.startGameDelay)] },
       [Out.game_started ps.length]) := by
  have hp' : ¬s.pendingAI = 0 := Nat.pos_iff_ne_zero.mp hp
  have hne' : ¬ps.isEmpty := by simpa [List.isEmpty_iff] using hne
  simp [stepF, hc, startGameResF, hp', hne']

/-- Per-step classification: every step of the engine is either *quiet*
(emits neither `new_round` nor a resolution, and cannot revive a dead round
except by crashing), emits exactly a `new_round`, or emits exactly one
resolution — and a resolution step requires `roundActive` and clears it. -/
lemma step_shape (s : Sys) (e : Ev) :
    ((stepF s e).2.countP isNR = 0 ∧ (stepF s e).2.countP isRes = 0 ∧
      ((s.room.roundActive = false ∨ s.crashed = true) →
        ((stepF s e).1.room.roundActive = false ∨ (stepF s e).1.crashed = true)))
    ∨ (∃ n u, (stepF s e).2 = [Out.new_round n u])
    ∨ (s.room.roundActive = true ∧ s.crashed = false ∧
        (stepF s e).1.room.roundActive = false ∧ (stepF s e).1.crashed = false ∧
        ((∃ song, (stepF s e).2 = [Out.round_timeout song]) ∨
         (∃ ps nm song, (stepF s e).2 = [Out.update_scores ps, Out.round_winner nm song]))) := by
  by_cases hc : s.crashed
  · left; rw [stepF_crashed e hc]; simp
  · have hcf : s.crashed = false := by simpa using hc
    cases e with
    | joinRoom rid sid name =>
      left
      by_cases h : rid = s.room.id ∧ s.room.state = Phase.LOBBY <;>
        simp [stepF, hcf, joinF, h, isNR, isRes]
    | startGameReq rid sid =>
      by_cases h1 : rid = s.room.id
      · by_cases h2 : s.room.players = []
        · left; rw [stepF_req_noop rid sid (Or.inr h2)]; simp
        · left; rw [stepF_req_ok rid sid hcf h1 h2]; simp [isNR, isRes]
      · left; rw [stepF_req_noop rid sid (Or.inl h1)]; simp
    | startGameRes r =>
      left
      by_cases hp : 0 < s.pendingAI
      · cases r with
        | fail t => rw [stepF_res_fail t hcf hp]; simp [isNR, isRes]
        | ok ps =>
          cases hps : ps with
          | nil => rw [stepF_res_empty hcf hp]; simp [isNR, isRes]
          | cons q qs =>
            rw [stepF_res_ok hcf hp (by simp)]
            simp [isNR, isRes]
      · have hp' : s.pendingAI = 0 := by omega
        simp [stepF, hcf, startGameResF, hp']
    | submitGuess rid sid guess =>
      by_cases h1 : rid = s.room.id
      · cases hact : s.room.roundActive with
        | false =>
          left
          rw [stepF_guess_dead rid sid guess hact]
          exact ⟨rfl, rfl, fun _ => Or.inl hact⟩
        | true =>
          by_cases h3 : s.room.state = Phase.PLAYING
          · cases hcs : s.room.currentSong with
            | none =>
              left
              simp [stepF, hcf, submitGuessF, h1, hact, h3, hcs]
            | some song =>
              cases hans : checkAnswer guess song.title with
              | false =>
                left
                rw [stepF_guess_wrong rid sid guess hcf h1 hact h3 hcs hans]
                exact ⟨by simp [isNR], by simp [isRes],
                  fun hx => hx.elim (fun h => absurd h (by simp)) Or.inr⟩
              | true =>
                cases hfind : s.room.players.find? (fun q => q.id = sid) with
                | some p =>
                  right; right
                  rw [stepF_guess_win rid sid guess hcf h1 hact h3 hcs hans hfind]
                  exact ⟨rfl, hcf, rfl, hcf, Or.inr ⟨_, _, _, rfl⟩⟩
                | none =>
                  left
                  rw [stepF_guess_ghost rid sid guess hcf h1 hact h3 hcs hans hfind]
                  simp
          · left
            have hstep : stepF s (Ev.submitGuess rid sid guess) = (s, []) := by
              simp [stepF, hcf, submitGuessF, h3]
            rw [hstep]
            exact ⟨rfl, rfl, fun hx => hx.elim (fun h => absurd h (by simp)) Or.inr⟩
      · left; rw [stepF_guess_unknown rid sid guess h1]; simp
    | fire d t =>
      by_cases hmem : (d, t) ∈ s.timers
      · cases t with
        | startGameDelay =>
          left
          by_cases h : s.room.totalRounds ≤ s.room.currentRound <;>
            simp [stepF, hcf, fireF, hmem, startRoundF, endGameF, h, isNR, isRes]
        | countdown =>
          cases hcs : s.room.songs[s.room.currentRound]? with
          | some song =>
            right; left
            refine ⟨s.room.currentRound + 1, song.previewUrl, ?_⟩
            simp [stepF, hcf, fireF, hmem, countdownF, hcs]
          | none =>
            left
            simp [stepF, hcf, fireF, hmem, countdownF, hcs]
        | roundTimeout song =>
          by_cases hguard : s.room.roundActive = true ∧ s.room.currentSong = some song
          · right; right
            rw [stepF_timeout_hit d hcf hmem hguard.1 hguard.2]
            exact ⟨hguard.1, hcf, rfl, hcf, Or.inl ⟨_, rfl⟩⟩
          · left
            have h' : s.room.roundActive = false ∨ s.room.currentSong ≠ some song := by
              by_cases ha : s.room.roundActive = true
              · right; intro hx; exact hguard ⟨ha, hx⟩
              · left; simpa using ha
            rw [stepF_timeout_stale d song hcf h']; simp
        | afterWin =>
          left
          by_cases h1 : s.room.currentRound < s.room.totalRounds
          · by_cases h2 : s.room.totalRounds ≤ s.room.currentRound <;>
              simp [stepF, hcf, fireF, hmem, startRoundF, endGameF, h1, h2, isNR, isRes]
          · simp [stepF, hcf, fireF, hmem, startRoundF, endGameF, h1, isNR, isRes]
        | afterTimeout =>
          left
          by_cases h : s.room.totalRounds ≤ s.room.currentRound <;>
            simp [stepF, hcf, fireF, hmem, startRoundF, endGameF, h, isNR, isRes]
      · left; simp [stepF, hcf, fireF, hmem]

/-- Along any run, a resolution is never emitted while `seen` records one
since the last `new_round` (provided the flag is backed by a dead or
crashed round). -/
lemma scan_run : ∀ (evs : List Ev) (s : Sys) (seen : Bool),
    (seen = true → s.room.roundActive = false ∨ s.crashed = true) →
    scanOk seen (run s evs).2 = true := by
  intro evs
  induction evs with
  | nil => intro s seen _; rfl
  | cons e evs ih =>
    intro s seen hInv
    rw [run_cons]
    show scanOk seen ((stepF s e).2 ++ (run (stepF s e).1 evs).2) = true
    rw [scanOk_append]
    rcases step_shape s e with ⟨hn, hr, hpres⟩ | ⟨n, u, ho⟩ | ⟨hact, hcr, hact', hcr', hsh⟩
    · obtain ⟨h1, h2⟩ := scanOk_quiet _ seen hn hr
      rw [h1, h2, Bool.true_and]
      exact ih _ seen (fun hs => hpres (hInv hs))
    · rw [ho]
      simp only [scanOk, scanFl, isNR, Bool.true_and, if_true]
      exact ih _ false (by simp)
    · have hseen : seen = false := by
        cases seen
        · rfl
        · rcases hInv rfl with h | h
          · rw [hact] at h; cases h
          · rw [hcr] at h; cases h
      subst hseen
      rcases hsh with ⟨song, ho⟩ | ⟨ps, nm, song, ho⟩ <;> rw [ho] <;>
        simp only [scanOk, scanFl, isNR, isRes, Bool.not_false, Bool.true_and, if_false,
          Bool.false_eq_true, if_true] <;>
        exact ih _ true (fun _ => Or.inl hact')

/-- Within a `new_round`-free segment that follows a resolution, no further
resolution appears. -/
lemma scanOk_true_noRes : ∀ (m p : List Out), scanOk true (m ++ p) = true →
    m.countP isNR = 0 → m.countP isRes = 0 := by
  intro m
  induction m with
  | nil => intro p _ _; rfl
  | cons x xs ih =>
    intro p hok hnr
    obtain ⟨hx, hnr'⟩ := countP_cons_zero hnr
    by_cases hr : isRes x
    · exfalso
      rw [List.cons_append] at hok
      simp [scanOk, hx, hr] at hok
    · have hok' : scanOk true (xs ++ p) = true := by
        rw [List.cons_append] at hok
        simpa [scanOk, hx, hr] using hok
      rw [List.countP_cons]
      simp [hr, ih p hok' hnr']

/-- A `new_round`-free segment of a scanned stream holds at most one
resolution. -/
lemma scanOk_seg : ∀ (m p : List Out) (seen : Bool), scanOk seen (m ++ p) = true →
    m.countP isNR = 0 → m.countP isRes ≤ 1 := by
  intro m
  induction m with
  | nil => intro p seen _ _; simp
  | cons x xs ih =>
    intro p seen hok hnr
    obtain ⟨hx, hnr'⟩ := countP_cons_zero hnr
    rw [List.cons_append] at hok
    by_cases hr : isRes x
    · have hok2 : seen = false ∧ scanOk true (xs ++ p) = true := by
        simpa [scanOk, hx, hr, Bool.and_eq_true] using hok
      have h0 : xs.countP isRes = 0 := scanOk_true_noRes xs p hok2.2 hnr'
      rw [List.countP_cons, h0, hr]
      simp
    · have hok' : scanOk seen (xs ++ p) = true := by
        simpa [scanOk, hx, hr] using hok
      rw [List.countP_cons]
      simpa [hr] using ih p seen hok' hnr'

/-- Main trace lemma: in any run of the engine, from any starting state,
every `new_round`-free segment of the broadcast stream carries at most one
resolution event (`round_winner` or `round_timeout`). -/
lemma resSegment (s : Sys) (evs : List Ev) (pre mid post : List Out)
    (h : (run s evs).2 = pre ++ mid ++ post)
    (hnr : mid.countP isNR = 0) : mid.countP isRes ≤ 1 := by
  have h0 := scan_run evs s false (by simp)
  rw [h, List.append_assoc, scanOk_append] at h0
  rw [Bool.and_eq_true] at h0
  exact scanOk_seg mid post _ h0.2 hnr

lemma countP_isW_le_isRes (l : List Out) : l.countP isW ≤ l.countP isRes :=
  List.countP_mono_left (fun x _ hx => by cases x <;> simp_all [isW, isRes])

/-! ### Claim theorems -/

/-- C1: at most one guess scores per room and round.  (i) In any run, any
`new_round`-free segment of the broadcast stream contains at most one
`round_winner`; (ii) once the round has been claimed (`roundActive =
false`) every further `submit_guess` leaves the whole room state — all
player scores included — unchanged and emits nothing; (iii) a step can emit
a `round_winner` only by claiming the still-unclaimed round, so the scoring
guess is the first accepted one in processing order. -/
theorem c1_at_most_one_guess_scores :
    (∀ (s : Sys) (evs : List Ev) (pre mid post : List Out),
        (run s evs).2 = pre ++ mid ++ post → mid.countP isNR = 0 → mid.countP isW ≤ 1)
    ∧ (∀ (s : Sys) (rid sid guess : String), s.room.roundActive = false →
        stepF s (Ev.submitGuess rid sid guess) = (s, []))
    ∧ (∀ (s : Sys) (e : Ev), 0 < (stepF s e).2.countP isW →
        s.room.roundActive = true ∧ (stepF s e).1.room.roundActive = false) := by
  refine ⟨?_, ?_, ?_⟩
  · intro s evs pre mid post h hnr
    have h1 := resSegment s evs pre mid post h hnr
    have h2 := countP_isW_le_isRes mid
    omega
  · intro s rid sid guess h
    exact stepF_guess_dead rid sid guess h
  · intro s e hw
    rcases step_shape s e with ⟨_, hr, _⟩ | ⟨n, u, ho⟩ | ⟨hact, _, hact', _, _⟩
    · have h2 := countP_isW_le_isRes (stepF s e).2
      omega
    · rw [ho] at hw
      simp [isW] at hw
    · exact ⟨hact, hact'⟩

/-- Witness for C1 on a concrete game: the host wins round 1; the segment
after `new_round` holds one `round_winner`, and a later guess is a no-op. -/
theorem c1_witness :
    List.countP isW [Out.update_scores [⟨"host", "Host", 1⟩], Out.round_winner "Host" song1] ≤ 1
    ∧ stepF (run demoSys winEvs).1 (Ev.submitGuess "R" "p2" "Wonderwall")
        = ((run demoSys winEvs).1, []) :=
  ⟨c1_at_most_one_guess_scores.1 demoSys winEvs
      [Out.game_loading, Out.game_started 1, Out.start_countdown, Out.new_round 1 "p1"]
      [Out.update_scores [⟨"host", "Host", 1⟩], Out.round_winner "Host" song1] []
      (by decide) (by decide),
   c1_at_most_one_guess_scores.2.1 (run demoSys winEvs).1 "R" "p2" "Wonderwall" (by decide)⟩

/-- C2 counterexample: an accepted guess from a socket that is not among
the room's players claims the round, after which `round_winner` is never
emitted and the timeout callback no-ops — the started round ends with
*neither* `round-won` nor `round-timeout`, refuting "exactly one of
{round-won, round-timeout} occurs".  After the trace no timer is pending,
so no resolution can ever arrive. -/
theorem c2_cex_ghost_round_unresolved :
    (run demoSys ghostEvs).2
      = [Out.game_loading, Out.game_started 1, Out.start_countdown, Out.new_round 1 "p1"]
    ∧ (run demoSys ghostEvs).1.timers = []
    ∧ (run demoSys ghostEvs).1.room.roundActive = false := by decide

/-- C2 amended: *at most* one of {round-won, round-timeout} occurs per
round; a round resolved by a winning guess never later also fires its
timeout resolution, because the timeout callback acts only if `roundActive`
is still true and `currentSong` is still the identical song object — when
either condition fails the callback changes no room state and emits no
event. -/
theorem c2_amended_at_most_one_resolution :
    (∀ (s : Sys) (evs : List Ev) (pre mid post : List Out),
        (run s evs).2 = pre ++ mid ++ post → mid.countP isNR = 0 → mid.countP isRes ≤ 1)
    ∧ (∀ (s : Sys) (d : Nat) (song : Song), s.crashed = false →
        s.room.roundActive = false ∨ s.room.currentSong ≠ some song →
        stepF s (Ev.fire d (TimerTask.roundTimeout song)) =
          ({ s with timers := s.timers.erase (d, TimerTask.roundTimeout song) }, [])) :=
  ⟨fun s evs pre mid post h hnr => resSegment s evs pre mid post h hnr,
   fun s d song hc h => stepF_timeout_stale d song hc h⟩

/-- Witness for C2 (amended) on concrete runs: a timed-out round carries
exactly one resolution, and the stale timeout fire after a ghost claim is a
guarded no-op. -/
theorem c2_witness :
    List.countP isRes [Out.round_timeout song1] ≤ 1
    ∧ stepF (run demoSys (startEvs ++ [Ev.submitGuess "R" "ghost" "Wonderwall"])).1
        (Ev.fire roundTimeoutMs (TimerTask.roundTimeout song1))
      = ({ (run demoSys (startEvs ++ [Ev.submitGuess "R" "ghost" "Wonderwall"])).1 with
            timers := (run demoSys (startEvs ++ [Ev.submitGuess "R" "ghost" "Wonderwall"])).1.timers.erase
              (roundTimeoutMs, TimerTask.roundTimeout song1) }, []) :=
  ⟨c2_amended_at_most_one_resolution.1 demoSys timeoutEvs
      [Out.game_loading, Out.game_started 1, Out.start_countdown, Out.new_round 1 "p1"]
      [Out.round_timeout song1] [] (by decide) (by decide),
   c2_amended_at_most_one_resolution.2 _ roundTimeoutMs song1 (by decide) (Or.inl (by decide))⟩

/-- C3 counterexample: right after a winning guess the room has *two* live
timers — the round's 30s timeout timer, which was *not* cancelled, plus the
freshly armed 5s inter-round timer — refuting both "at most one live timer
per room at any instant" and "the outstanding timeout timer is cancelled
the moment the round resolves early". -/
theorem c3_cex_two_live_timers :
    (run demoSys winEvs).1.timers
      = [(roundTimeoutMs, TimerTask.roundTimeout song1), (winPauseMs, TimerTask.afterWin)]
    ∧ (roundTimeoutMs, TimerTask.roundTimeout song1) ∈ (run demoSys winEvs).1.timers
    ∧ 2 ≤ (run demoSys winEvs).1.timers.length := by decide

/-- C3 amended: the engine never cancels a timer.  A winning guess leaves
every previously armed timer (the round's timeout timer included) in the
queue and merely appends the inter-round timer, so several timers can be
live for one room at once; the stale timeout timer later fires as a no-op
thanks to the `roundActive`/`currentSong` guard. -/
theorem c3_amended_no_timer_cancellation :
    (∀ (s : Sys) (rid sid guess : String) (song : Song) (p : Player),
        s.crashed = false → rid = s.room.id → s.room.roundActive = true →
        s.room.state = Phase.PLAYING → s.room.currentSong = some song →
        checkAnswer guess song.title = true →
        s.room.players.find? (fun q => q.id = sid) = some p →
        (stepF s (Ev.submitGuess rid sid guess)).1.timers
          = s.timers ++ [(winPauseMs, TimerTask.afterWin)])
    ∧ (∀ (s : Sys) (d : Nat) (song : Song), s.crashed = false →
        s.room.roundActive = false ∨ s.room.currentSong ≠ some song →
        (stepF s (Ev.fire d (TimerTask.roundTimeout song))).1.room = s.room
        ∧ (stepF s (Ev.fire d (TimerTask.roundTimeout song))).2 = []) := by
  constructor
  · intro s rid sid guess song p hc hrid hact hst hcs hans hfind
    rw [stepF_guess_win rid sid guess hc hrid hact hst hcs hans hfind]
  · intro s d song hc h
    rw [stepF_timeout_stale d song hc h]
    exact ⟨rfl, rfl⟩

/-- Witness for C3 (amended) at the concrete pre-win state. -/
theorem c3_witness :
    (stepF (run demoSys startEvs).1 (Ev.submitGuess "R" "host" "Wonderwall")).1.timers
      = (run demoSys startEvs).1.timers ++ [(winPauseMs, TimerTask.afterWin)]
    ∧ (stepF (run demoSys startEvs).1 (Ev.fire 7 (TimerTask.roundTimeout song2))).1.room
        = (run demoSys startEvs).1.room
    ∧ (stepF (run demoSys startEvs).1 (Ev.fire 7 (TimerTask.roundTimeout song2))).2 = [] :=
  ⟨c3_amended_no_timer_cancellation.1 (run demoSys startEvs).1 "R" "host" "Wonderwall" song1
      ⟨"host", "Host", 0⟩ (by decide) (by decide) (by decide) (by decide) (by decide)
      (by decide) (by decide),
   (c3_amended_no_timer_cancellation.2 (run demoSys startEvs).1 7 song2 (by decide)
      (Or.inr (by decide))).1,
   (c3_amended_no_timer_cancellation.2 (run demoSys startEvs).1 7 song2 (by decide)
      (Or.inr (by decide))).2⟩

/-- C4: an accepted guess from a connection id that is not among the
room's players sets `roundActive` to false but increments no score, emits
nothing, and schedules nothing (i); afterwards no step can emit a
resolution while the round stays claimed (ii); and the only way the room
returns to an active round is a step that announces the *next* round with
`new_round` — or a crash (iii).  The consumed round therefore never
receives a `round-won` or `round-timeout` outcome. -/
theorem c4_ghost_win_consumes_round :
    (∀ (s : Sys) (rid sid guess : String) (song : Song),
        s.crashed = false → rid = s.room.id → s.room.roundActive = true →
        s.room.state = Phase.PLAYING → s.room.currentSong = some song →
        checkAnswer guess song.title = true →
        s.room.players.find? (fun q => q.id = sid) = none →
        stepF s (Ev.submitGuess rid sid guess)
          = ({ s with room := { s.room with roundActive := false } }, []))
    ∧ (∀ (s : Sys) (e : Ev), s.room.roundActive = false → (stepF s e).2.countP isRes = 0)
    ∧ (∀ (s : Sys) (e : Ev), s.room.roundActive = false → s.crashed = false →
        (stepF s e).1.room.roundActive = true →
        (stepF s e).2.countP isNR = 1 ∨ (stepF s e).1.crashed = true) := by
  refine ⟨?_, ?_, ?_⟩
  · intro s rid sid guess song hc hrid hact hst hcs hans hfind
    exact stepF_guess_ghost rid sid guess hc hrid hact hst hcs hans hfind
  · intro s e h
    rcases step_shape s e with ⟨_, hr, _⟩ | ⟨n, u, ho⟩ | ⟨hact, _, _, _, _⟩
    · exact hr
    · rw [ho]; simp [isRes]
    · rw [h] at hact; cases hact
  · intro s e h1 h2 h3
    rcases step_shape s e with ⟨_, _, hpres⟩ | ⟨n, u, ho⟩ | ⟨hact, _, _, _, _⟩
    · rcases hpres (Or.inl h1) with h | h
      · rw [h3] at h; cases h
      · exact Or.inr h
    · left; rw [ho]; simp [isNR]
    · rw [h1] at hact; cases hact

/-- Witness for C4 at the concrete active round. -/
theorem c4_witness :
    stepF (run demoSys startEvs).1 (Ev.submitGuess "R" "ghost" "Wonderwall")
      = ({ (run demoSys startEvs).1 with
            room := { (run demoSys startEvs).1.room with roundActive := false } }, []) :=
  c4_ghost_win_consumes_round.1 (run demoSys startEvs).1 "R" "ghost" "Wonderwall" song1
    (by decide) (by decide) (by decide) (by decide) (by decide) (by decide) (by decide)

/-- C5 counterexample: the `start_game` handler checks neither the
requester nor the phase.  On a room already in PLAYING, a request from a
socket that is not the owner (`"intruder"`, while the owner/first player is
`"host"`) still flips the room to LOADING and broadcasts `game_loading`; it
is not a no-op and no error is surfaced. -/
theorem c5_cex_start_game_unguarded :
    (run demoSys (List.take 2 startEvs)).1.room.state = Phase.PLAYING
    ∧ (run demoSys (List.take 2 startEvs)).1.room.players.head?.map Player.id = some "host"
    ∧ (stepF (run demoSys (List.take 2 startEvs)).1
        (Ev.startGameReq "R" "intruder")).1.room.state = Phase.LOADING
    ∧ (stepF (run demoSys (List.take 2 startEvs)).1
        (Ev.startGameReq "R" "intruder")).2 = [Out.game_loading] := by decide

/-- C5 amended: a start-game request for a *known* room with a non-empty
player list always moves the room to LOADING and begins playlist
resolution, regardless of which connection sent it and of the current
phase; for an unknown room (or an empty player list) the request is
silently dropped — no state change and *no* error surfaced. -/
theorem c5_amended_start_game_guards :
    (∀ (s : Sys) (rid sid : String), s.crashed = false → rid = s.room.id →
        s.room.players ≠ [] →
        stepF s (Ev.startGameReq rid sid)
          = ({ s with
                room := { s.room with state := Phase.LOADING },
                pendingAI := s.pendingAI + 1 }, [Out.game_loading]))
    ∧ (∀ (s : Sys) (rid sid : String), rid ≠ s.room.id ∨ s.room.players = [] →
        stepF s (Ev.startGameReq rid sid) = (s, [])) :=
  ⟨fun s rid sid hc hrid hp => stepF_req_ok rid sid hc hrid hp,
   fun s rid sid h => stepF_req_noop rid sid h⟩

/-- Witness for C5 (amended) at concrete states. -/
theorem c5_witness :
    stepF demoSys (Ev.startGameReq "R" "host")
      = ({ demoSys with
            room := { demoSys.room with state := Phase.LOADING },
            pendingAI := demoSys.pendingAI + 1 }, [Out.game_loading])
    ∧ stepF demoSys (Ev.startGameReq "NOPE" "host") = (demoSys, []) :=
  ⟨c5_amended_start_game_guards.1 demoSys "R" "host" (by decide) (by decide) (by decide),
   c5_amended_start_game_guards.2 demoSys "NOPE" "host" (Or.inl (by decide))⟩

/-- C6 counterexample: the pause before the next round is `5000` ms both
after a winning guess and after a timeout — the win-side delay is *not*
strictly shorter.  The concrete win run ends with the `(winPauseMs,
afterWin)` timer armed, the concrete timeout run with `(timeoutPauseMs,
afterTimeout)`. -/
theorem c6_cex_delays_not_shorter :
    ¬winPauseMs < timeoutPauseMs
    ∧ (run demoSys winEvs).1.timers.getLast? = some (winPauseMs, TimerTask.afterWin)
    ∧ (run demoSys timeoutEvs).1.timers = [(timeoutPauseMs, TimerTask.afterTimeout)] := by decide

/-- C6 amended: the inter-round delays after a win and after a timeout are
*equal* (both 5000 ms): every winning guess arms the next-round timer with
`winPauseMs` and every timeout resolution arms it with `timeoutPauseMs`,
and the two constants coincide. -/
theorem c6_amended_equal_inter_round_delays :
    winPauseMs = timeoutPauseMs
    ∧ (∀ (s : Sys) (rid sid guess : String) (song : Song) (p : Player),
        s.crashed = false → rid = s.room.id → s.room.roundActive = true →
        s.room.state = Phase.PLAYING → s.room.currentSong = some song →
        checkAnswer guess song.title = true →
        s.room.players.find? (fun q => q.id = sid) = some p →
        (stepF s (Ev.submitGuess rid sid guess)).1.timers
          = s.timers ++ [(winPauseMs, TimerTask.afterWin)])
    ∧ (∀ (s : Sys) (d : Nat) (song : Song), s.crashed = false →
        (d, TimerTask.roundTimeout song) ∈ s.timers →
        s.room.roundActive = true → s.room.currentSong = some song →
        (stepF s (Ev.fire d (TimerTask.roundTimeout song))).1.timers
          = s.timers.erase (d, TimerTask.roundTimeout song)
            ++ [(timeoutPauseMs, TimerTask.afterTimeout)]) := by
  refine ⟨rfl, ?_, ?_⟩
  · intro s rid sid guess song p hc hrid hact hst hcs hans hfind
    rw [stepF_guess_win rid sid guess hc hrid hact hst hcs hans hfind]
  · intro s d song hc hmem hact hcs
    rw [stepF_timeout_hit d hc hmem hact hcs]

/-- Witness for C6 (amended) at the concrete active round. -/
theorem c6_witness :
    (stepF (run demoSys startEvs).1 (Ev.submitGuess "R" "host" "Wonderwall")).1.timers
      = (run demoSys startEvs).1.timers ++ [(winPauseMs, TimerTask.afterWin)]
    ∧ (stepF (run demoSys startEvs).1
        (Ev.fire roundTimeoutMs (TimerTask.roundTimeout song1))).1.timers
      = (run demoSys startEvs).1.timers.erase (roundTimeoutMs, TimerTask.roundTimeout song1)
        ++ [(timeoutPauseMs, TimerTask.afterTimeout)] :=
  ⟨c6_amended_equal_inter_round_delays.2.1 (run demoSys startEvs).1 "R" "host" "Wonderwall"
      song1 ⟨"host", "Host", 0⟩ (by decide) (by decide) (by decide) (by decide) (by decide)
      (by decide) (by decide),
   c6_amended_equal_inter_round_delays.2.2 (run demoSys startEvs).1 roundTimeoutMs song1
      (by decide) (by decide) (by decide) (by decide)⟩

/-- C7: when playlist resolution fails during LOADING (provider error or
timeout, or an empty final playlist), the resuming continuation sets the
phase to LOBBY, broadcasts exactly one error event, arms no timer, and
leaves `songs`, `totalRounds` and `currentRound` untouched — so `playlist`,
`totalRounds` and `roundIndex` are only ever set on success and clients
never observe a partial PLAYING state. -/
theorem c7_loading_failure_rolls_back :
    (∀ (s : Sys) (t : Bool), s.crashed = false → 0 < s.pendingAI →
        stepF s (Ev.startGameRes (StartResult.fail t))
          = ({ s with
                room := { s.room with state := Phase.LOBBY },
                pendingAI := s.pendingAI - 1 },
             [Out.errorEv (if t then "AI_TIMEOUT" else "GENERATION_FAILED")]))
    ∧ (∀ (s : Sys), s.crashed = false → 0 < s.pendingAI →
        stepF s (Ev.startGameRes (StartResult.ok []))
          = ({ s with
                room := { s.room with state := Phase.LOBBY },
                pendingAI := s.pendingAI - 1 },
             [Out.errorEv "GENERATION_FAILED"])) :=
  ⟨fun s t hc hp => stepF_res_fail t hc hp, fun s hc hp => stepF_res_empty hc hp⟩

/-- Witness for C7 at the concrete LOADING room. -/
theorem c7_witness :
    stepF (run demoSys [Ev.startGameReq "R" "host"]).1 (Ev.startGameRes (StartResult.fail true))
      = ({ (run demoSys [Ev.startGameReq "R" "host"]).1 with
            room := { (run demoSys [Ev.startGameReq "R" "host"]).1.room with state := Phase.LOBBY },
            pendingAI := (run demoSys [Ev.startGameReq "R" "host"]).1.pendingAI - 1 },
         [Out.errorEv "AI_TIMEOUT"])
    ∧ stepF (run demoSys [Ev.startGameReq "R" "host"]).1 (Ev.startGameRes (StartResult.ok []))
      = ({ (run demoSys [Ev.startGameReq "R" "host"]).1 with
            room := { (run demoSys [Ev.startGameReq "R" "host"]).1.room with state := Phase.LOBBY },
            pendingAI := (run demoSys [Ev.startGameReq "R" "host"]).1.pendingAI - 1 },
         [Out.errorEv "GENERATION_FAILED"]) :=
  ⟨c7_loading_failure_rolls_back.1 (run demoSys [Ev.startGameReq "R" "host"]).1 true
      (by decide) (by decide),
   c7_loading_failure_rolls_back.2 (run demoSys [Ev.startGameReq "R" "host"]).1
      (by decide) (by decide)⟩

/-- C8 counterexample: a guess for an existing room arriving after
`roundActive` was set false (round already won, room still PLAYING) gets
*no* private rejection notice — the handler returns silently with no
output at all — refuting "yields a private rejection notice sent to the
submitter". -/
theorem c8_cex_no_rejection_notice :
    (run demoSys winEvs).1.room.state = Phase.PLAYING
    ∧ (run demoSys winEvs).1.room.roundActive = false
    ∧ (stepF (run demoSys winEvs).1 (Ev.submitGuess "R" "host" "Hey Jude")).2 = [] := by decide

/-- C8 amended: a guess submitted after `roundActive` has been set false is
*silently ignored*: the handler changes no score or other room state and
sends nothing, not even a rejection notice. -/
theorem c8_amended_late_guess_silent :
    ∀ (s : Sys) (rid sid guess : String), s.room.roundActive = false →
      stepF s (Ev.submitGuess rid sid guess) = (s, []) :=
  fun _s rid sid guess h => stepF_guess_dead rid sid guess h

/-- Witness for C8 (amended) at the ghost-claimed concrete room. -/
theorem c8_witness :
    stepF (run demoSys ghostEvs).1 (Ev.submitGuess "R" "host" "Wonderwall")
      = ((run demoSys ghostEvs).1, []) :=
  c8_amended_late_guess_silent (run demoSys ghostEvs).1 "R" "host" "Wonderwall" (by decide)

/-- C9: the token-overlap tier.  (i) Past the falsy/empty/exact tiers, the
tier accepts exactly when `4 * |actualTokens| ≤ 5 * |guessTokens ∩
actualTokens|` holds (and otherwise the decision falls through to the
Levenshtein tier); (ii) that integer test is precisely `overlap =
|∩|/|actualTokens| ≥ 0.8`, the denominator being the actual title's token
count; (iii) `accept("Teen Spirit", "Smells Like Teen Spirit")` is false
even though (iv) the cleaned guess is a substring of the cleaned title —
no tier accepts a guess merely for being a substring — with (v) overlap
2/4 = 0.5 < 0.8. -/
theorem c9_overlap_tier :
    (∀ g a : String, g ≠ "" → a ≠ "" → clean g ≠ "" → clean a ≠ "" → clean g ≠ clean a →
        (0 < (finalTokens (clean a)).card ∧
            4 * (finalTokens (clean a)).card
              ≤ 5 * (finalTokens (clean g) ∩ finalTokens (clean a)).card →
          checkAnswer g a = true)
        ∧ (¬(0 < (finalTokens (clean a)).card ∧
            4 * (finalTokens (clean a)).card
              ≤ 5 * (finalTokens (clean g) ∩ finalTokens (clean a)).card) →
          checkAnswer g a = levSimilarOK (clean g) (clean a)))
    ∧ (∀ g a : String, 0 < (finalTokens (clean a)).card →
        ((4 : ℚ) / 5 ≤ ((finalTokens (clean g) ∩ finalTokens (clean a)).card : ℚ)
            / ((finalTokens (clean a)).card : ℚ)
          ↔ 4 * (finalTokens (clean a)).card
              ≤ 5 * (finalTokens (clean g) ∩ finalTokens (clean a)).card))
    ∧ checkAnswer "Teen Spirit" "Smells Like Teen Spirit" = false
    ∧ clean "Smells Like Teen Spirit" = "smells like " ++ clean "Teen Spirit"
    ∧ (finalTokens (clean "Teen Spirit") ∩ finalTokens (clean "Smells Like Teen Spirit")).card = 2
    ∧ (finalTokens (clean "Smells Like Teen Spirit")).card = 4 := by
  refine ⟨?_, ?_, by decide, by decide, by decide, by decide⟩
  · intro g a h1 h2 h3 h4 h5
    constructor
    · intro htier
      simp [checkAnswer, h1, h2, h3, h4, h5, htier]
    · intro htier
      simp only [checkAnswer]
      rw [if_neg (by simp [h1, h2]), if_neg (by simp [h3, h4]), if_neg h5, if_neg htier]
  · intro g a hpos
    have hs : (0 : ℚ) < ((finalTokens (clean a)).card : ℚ) := by exact_mod_cast hpos
    rw [div_le_div_iff₀ (by norm_num) hs]
    constructor
    · intro h
      have h' : (4 : ℚ) * ((finalTokens (clean a)).card : ℚ)
          ≤ 5 * ((finalTokens (clean g) ∩ finalTokens (clean a)).card : ℚ) := by linarith
      exact_mod_cast h'
    · intro h
      have h' : (4 : ℚ) * ((finalTokens (clean a)).card : ℚ)
          ≤ 5 * ((finalTokens (clean g) ∩ finalTokens (clean a)).card : ℚ) := by
        exact_mod_cast h
      linarith

/-- Witness for C9 on the Teen Spirit pair: the tier rejects (overlap below
the threshold, so the decision falls to the Levenshtein tier) and the
ratio form agrees with the integer form. -/
theorem c9_witness :
    checkAnswer "Teen Spirit" "Smells Like Teen Spirit"
      = levSimilarOK (clean "Teen Spirit") (clean "Smells Like Teen Spirit")
    ∧ ((4 : ℚ) / 5
        ≤ ((finalTokens (clean "Teen Spirit")
            ∩ finalTokens (clean "Smells Like Teen Spirit")).card : ℚ)
          / ((finalTokens (clean "Smells Like Teen Spirit")).card : ℚ)
      ↔ 4 * (finalTokens (clean "Smells Like Teen Spirit")).card
          ≤ 5 * (finalTokens (clean "Teen Spirit")
              ∩ finalTokens (clean "Smells Like Teen Spirit")).card) :=
  ⟨(c9_overlap_tier.1 "Teen Spirit" "Smells Like Teen Spirit" (by decide) (by decide)
      (by decide) (by decide) (by decide)).2 (by decide),
   c9_overlap_tier.2.1 "Teen Spirit" "Smells Like Teen Spirit" (by decide)⟩

/-- C10 counterexample: a truthy non-string argument does *not* yield a
boolean — `clean` calls `.toLowerCase()` on it and the call throws a
TypeError — refuting "for every pair of arguments, including non-string
values, it returns a boolean without throwing". -/
theorem c10_cex_number_input_throws :
    checkAnswerJS (JSVal.vNum 1) (JSVal.vStr "Wonderwall")
      = Except.error "TypeError: toLowerCase is not a function" := rfl

/-- C10 amended: `checkAnswer` is total and boolean-valued over all string
arguments and over every falsy value (null, undefined, empty string):
those return `false` via the guard, as does any string input whose
normalization is empty; only truthy non-string arguments throw. -/
theorem c10_amended_totality :
    (∀ g a : String, checkAnswerJS (JSVal.vStr g) (JSVal.vStr a) = Except.ok (checkAnswer g a))
    ∧ (∀ v : JSVal, checkAnswerJS JSVal.vNull v = Except.ok false
        ∧ checkAnswerJS v JSVal.vNull = Except.ok false
        ∧ checkAnswerJS JSVal.vUndefined v = Except.ok false
        ∧ checkAnswerJS v JSVal.vUndefined = Except.ok false)
    ∧ (∀ g a : String, clean g = "" ∨ clean a = "" → checkAnswer g a = false) := by
  refine ⟨?_, ?_, ?_⟩
  · intro g a
    by_cases hg : g = ""
    · subst hg; simp [checkAnswerJS, truthy, checkAnswer]
    · by_cases ha : a = ""
      · subst ha; simp [checkAnswerJS, truthy, checkAnswer, hg]
      · simp [checkAnswerJS, truthy, hg, ha]
  · intro v
    refine ⟨by simp [checkAnswerJS, truthy], ?_, by simp [checkAnswerJS, truthy], ?_⟩
    · by_cases hv : truthy v = false <;> simp [checkAnswerJS, truthy, hv]
    · by_cases hv : truthy v = false <;> simp [checkAnswerJS, truthy, hv]
  · intro g a h
    by_cases hg : g = ""
    · simp [checkAnswer, hg]
    · by_cases ha : a = ""
      · simp [checkAnswer, ha]
      · rcases h with h | h <;> simp [checkAnswer, hg, ha, h]

/-- Witness for C10 (amended) at concrete values. -/
theorem c10_witness :
    checkAnswerJS (JSVal.vStr "Wonderwall") (JSVal.vStr "Wonderwall")
      = Except.ok (checkAnswer "Wonderwall" "Wonderwall")
    ∧ checkAnswerJS JSVal.vNull (JSVal.vStr "x") = Except.ok false
    ∧ checkAnswer "???" "Wonderwall" = false :=
  ⟨c10_amended_totality.1 "Wonderwall" "Wonderwall",
   (c10_amended_totality.2.1 (JSVal.vStr "x")).1,
   c10_amended_totality.2.2 "???" "Wonderwall" (Or.inl (by decide))⟩

end PSG
